import Mathlib

/-!
Shallow embedding of the data-transformation core of `streamlit_app.py`
(a Streamlit dashboard over a participant-level health survey table):
the loader (`load_data`), the sidebar filter defaults and row mask
(`apply_filters`), the outcome prevalence table (`prevalence_table`),
the lifestyle tertile grouping (`pd.cut` + `groupby`) and the metabolic
correlation matrix (`corr().stack()`).

Numeric cells are modelled as `Option ℚ` (`none` is a missing value,
pandas `NaN`); categorical cells as `Option String`; pandas reductions
skip or propagate missing values exactly where the library does.
Floating-point arithmetic is idealised as exact rational arithmetic,
except that the Pearson correlation coefficient (which divides by a
square root) is valued in `ℝ`.
-/

namespace Dashboard

/-- Python `str.upper` (ASCII case mapping), as used on the outcome
strings: uppercase every character. -/
def upperStr (s : String) : String := String.mk (s.data.map Char.toUpper)

/-- Python `str(x)` applied to a possibly missing CSV cell: under
`astype(str)` pandas renders a missing value (`NaN`) as the literal
string "nan". -/
def pyStr (v : Option String) : String := v.getD "nan"

/-- `nice_label` from the source: `name.replace("_", " ")`; the pattern is a
single character, so the replacement is a character map. -/
def nice_label (name : String) : String :=
  String.mk (name.data.map (fun c => if c = '_' then ' ' else c))

/-- `OUTCOME_COLS` from the source. -/
def OUTCOME_COLS : List String :=
  ["Heart_Attack", "Diabetes", "Stroke", "Celiac_Disease",
   "Arthritis", "Liver_Disease", "Asthma", "COPD"]

/-- A raw CSV record, before `load_data` runs: the 8 outcome cells may be
missing (pandas reads them as `NaN`), the numeric cells are `Option ℚ` and
the categorical demographic cells are `Option String`. -/
structure RawRow where
  Age : Option ℚ
  Gender : Option String
  Ethnicity : Option String
  Education_Level : Option String
  Income_to_Poverty_Ratio : Option ℚ
  Cigarettes_Per_Day : Option ℚ
  Sleep_Hours : Option ℚ
  Alcohol_Use_Frequency : Option ℚ
  Physical_Activity_Equivalent_Min : Option ℚ
  Heart_Attack : Option String
  Diabetes : Option String
  Stroke : Option String
  Celiac_Disease : Option String
  Arthritis : Option String
  Liver_Disease : Option String
  Asthma : Option String
  COPD : Option String
deriving DecidableEq, Repr

/-- A loaded participant record, after `load_data` has coerced the 8 outcome
columns to strings (`df[col].astype(str)`) and attached the two derived
fields `Comorbidity_Count` and `Any_Comorbidity`. -/
structure Row where
  Age : Option ℚ
  Gender : Option String
  Ethnicity : Option String
  Education_Level : Option String
  Income_to_Poverty_Ratio : Option ℚ
  Cigarettes_Per_Day : Option ℚ
  Sleep_Hours : Option ℚ
  Alcohol_Use_Frequency : Option ℚ
  Physical_Activity_Equivalent_Min : Option ℚ
  Heart_Attack : String
  Diabetes : String
  Stroke : String
  Celiac_Disease : String
  Arthritis : String
  Liver_Disease : String
  Asthma : String
  COPD : String
  Comorbidity_Count : ℕ
  Any_Comorbidity : String
deriving DecidableEq, Repr

/-- Column access `df[col]` for an outcome column of a raw record. -/
def rawOutcome (x : RawRow) (col : String) : Option String :=
  if col = "Heart_Attack" then x.Heart_Attack
  else if col = "Diabetes" then x.Diabetes
  else if col = "Stroke" then x.Stroke
  else if col = "Celiac_Disease" then x.Celiac_Disease
  else if col = "Arthritis" then x.Arthritis
  else if col = "Liver_Disease" then x.Liver_Disease
  else if col = "Asthma" then x.Asthma
  else if col = "COPD" then x.COPD
  else none

/-- Column access `df[col]` for an outcome column of a loaded record. -/
def outcomeField (r : Row) (col : String) : String :=
  if col = "Heart_Attack" then r.Heart_Attack
  else if col = "Diabetes" then r.Diabetes
  else if col = "Stroke" then r.Stroke
  else if col = "Celiac_Disease" then r.Celiac_Disease
  else if col = "Arthritis" then r.Arthritis
  else if col = "Liver_Disease" then r.Liver_Disease
  else if col = "Asthma" then r.Asthma
  else if col = "COPD" then r.COPD
  else ""

/-- One row of `load_data` (source lines 77-83): coerce each outcome cell to
a string, count the cells whose upper-casing equals "YES"
(`outcome_yes.sum(axis=1)`), and set `Any_Comorbidity` by
`np.where(count > 0, "Yes", "No")`. -/
def load_row (x : RawRow) : Row :=
  let o1 := pyStr x.Heart_Attack
  let o2 := pyStr x.Diabetes
  let o3 := pyStr x.Stroke
  let o4 := pyStr x.Celiac_Disease
  let o5 := pyStr x.Arthritis
  let o6 := pyStr x.Liver_Disease
  let o7 := pyStr x.Asthma
  let o8 := pyStr x.COPD
  let cnt := List.countP (fun s => upperStr s == "YES") [o1, o2, o3, o4, o5, o6, o7, o8]
  { Age := x.Age
    Gender := x.Gender
    Ethnicity := x.Ethnicity
    Education_Level := x.Education_Level
    Income_to_Poverty_Ratio := x.Income_to_Poverty_Ratio
    Cigarettes_Per_Day := x.Cigarettes_Per_Day
    Sleep_Hours := x.Sleep_Hours
    Alcohol_Use_Frequency := x.Alcohol_Use_Frequency
    Physical_Activity_Equivalent_Min := x.Physical_Activity_Equivalent_Min
    Heart_Attack := o1
    Diabetes := o2
    Stroke := o3
    Celiac_Disease := o4
    Arthritis := o5
    Liver_Disease := o6
    Asthma := o7
    COPD := o8
    Comorbidity_Count := cnt
    Any_Comorbidity := if cnt > 0 then "Yes" else "No" }

/-- `load_data`: read the table and derive the comorbidity fields, row-wise. -/
def load_data (xs : List RawRow) : List Row := xs.map load_row

/-- The filter selections collected by the sidebar widgets of
`apply_filters`: six inclusive numeric ranges and three lists of selected
categorical values. -/
structure FilterSelection where
  age_range : ℚ × ℚ
  income_range : ℚ × ℚ
  cig_range : ℚ × ℚ
  sleep_range : ℚ × ℚ
  alcohol_range : ℚ × ℚ
  pa_range : ℚ × ℚ
  selected_genders : List String
  selected_ethnicities : List String
  selected_edu : List String
deriving DecidableEq, Repr

/-- pandas `Series.between(lo, hi)`: inclusive on both ends, `False` on a
missing value. -/
def between (v : Option ℚ) (lo hi : ℚ) : Bool :=
  match v with
  | none => false
  | some x => decide (lo ≤ x) && decide (x ≤ hi)

/-- pandas `Series.isin(values)`: membership test, `False` on a missing
value (a `NaN` cell is never equal to any of the selected strings). -/
def isin (v : Option String) (vals : List String) : Bool :=
  match v with
  | none => false
  | some x => vals.contains x

/-- The boolean mask of `apply_filters` (source lines 182-196): the
conjunction of the six `between` range tests, with each categorical `isin`
test added only when the selected list is non-empty (Python
`if selected_genders:` — an empty list is falsy). -/
def row_mask (sel : FilterSelection) (r : Row) : Bool :=
  between r.Age sel.age_range.1 sel.age_range.2
  && between r.Income_to_Poverty_Ratio sel.income_range.1 sel.income_range.2
  && between r.Cigarettes_Per_Day sel.cig_range.1 sel.cig_range.2
  && between r.Sleep_Hours sel.sleep_range.1 sel.sleep_range.2
  && between r.Alcohol_Use_Frequency sel.alcohol_range.1 sel.alcohol_range.2
  && between r.Physical_Activity_Equivalent_Min sel.pa_range.1 sel.pa_range.2
  && (sel.selected_genders.isEmpty || isin r.Gender sel.selected_genders)
  && (sel.selected_ethnicities.isEmpty || isin r.Ethnicity sel.selected_ethnicities)
  && (sel.selected_edu.isEmpty || isin r.Education_Level sel.selected_edu)

/-- `apply_filters` applied to a given selection: `df[mask].copy()` keeps
exactly the rows whose mask entry is `True`, in their original order. -/
def apply_filters (df : List Row) (sel : FilterSelection) : List Row :=
  df.filter (row_mask sel)

/-- Python `int(x)`: truncation toward zero. -/
def pyInt (q : ℚ) : ℤ := if 0 ≤ q then ⌊q⌋ else -⌊-q⌋

/-- `pyInt` followed by the implicit widening back to the numeric column
type when the slider bound is compared to the data. -/
def pyIntQ (q : ℚ) : ℚ := (pyInt q : ℚ)

/-- Python `round(x)` to an integer: round half to even. -/
def round_half_even (q : ℚ) : ℤ :=
  if q - ⌊q⌋ < 1/2 then ⌊q⌋
  else if 1/2 < q - ⌊q⌋ then ⌊q⌋ + 1
  else if ⌊q⌋ % 2 = 0 then ⌊q⌋ else ⌊q⌋ + 1

/-- Python `round(x, 1)`: round to one decimal place, ties to even. -/
def round1 (q : ℚ) : ℚ := (round_half_even (q * 10) : ℚ) / 10

/-- pandas `Series.min` over a numeric column: the least non-missing value,
`none` when every cell is missing. -/
def colMin (df : List Row) (f : Row → Option ℚ) : Option ℚ :=
  match df.filterMap f with
  | [] => none
  | x :: xs => some (xs.foldl min x)

/-- pandas `Series.max`, dually. -/
def colMax (df : List Row) (f : Row → Option ℚ) : Option ℚ :=
  match df.filterMap f with
  | [] => none
  | x :: xs => some (xs.foldl max x)

/-- `sorted(df[col].dropna().unique())`: the observed values of a
categorical column.  (The source sorts the options; the order never
matters to the mask, so only the deduplication is modelled.) -/
def observed (df : List Row) (f : Row → Option String) : List String :=
  (df.filterMap f).dedup

/-- The widget defaults of `apply_filters` (source lines 95-179): each
integer slider spans `int(col.min())..int(col.max())` (Python `int`
truncates toward zero), the income slider spans the observed bounds
rounded to one decimal, and each multiselect defaults to every observed
value.  `none` when a numeric column has no defined cell (`int(nan)`
raises there). -/
def default_selection (df : List Row) : Option FilterSelection :=
  (colMin df Row.Age).bind fun a0 =>
  (colMax df Row.Age).bind fun a1 =>
  (colMin df Row.Income_to_Poverty_Ratio).bind fun i0 =>
  (colMax df Row.Income_to_Poverty_Ratio).bind fun i1 =>
  (colMin df Row.Cigarettes_Per_Day).bind fun c0 =>
  (colMax df Row.Cigarettes_Per_Day).bind fun c1 =>
  (colMin df Row.Sleep_Hours).bind fun s0 =>
  (colMax df Row.Sleep_Hours).bind fun s1 =>
  (colMin df Row.Alcohol_Use_Frequency).bind fun l0 =>
  (colMax df Row.Alcohol_Use_Frequency).bind fun l1 =>
  (colMin df Row.Physical_Activity_Equivalent_Min).bind fun p0 =>
  (colMax df Row.Physical_Activity_Equivalent_Min).bind fun p1 =>
  some
    { age_range := (pyIntQ a0, pyIntQ a1)
      income_range := (round1 i0, round1 i1)
      cig_range := (pyIntQ c0, pyIntQ c1)
      sleep_range := (pyIntQ s0, pyIntQ s1)
      alcohol_range := (pyIntQ l0, pyIntQ l1)
      pa_range := (pyIntQ p0, pyIntQ p1)
      selected_genders := observed df Row.Gender
      selected_ethnicities := observed df Row.Ethnicity
      selected_edu := observed df Row.Education_Level }

/-- Whole number test for a slider bound. -/
def isInt1 (q : ℚ) : Bool := q.den == 1

/-- The unsorted rows of `prevalence_table` (source lines 202-208), in
`OUTCOME_COLS` order: human-readable label and
`(s == "YES").mean() * 100` rounded to one decimal. -/
def prev_rows (df : List Row) : List (String × ℚ) :=
  OUTCOME_COLS.map (fun col =>
    (nice_label col,
     round1 ((df.countP (fun r => upperStr (outcomeField r col) == "YES") : ℚ)
       / df.length * 100)))

/-- What `sort_values("Prevalence (%)")` sorts by: ascending order of the
prevalence component. -/
def prevLe (a b : String × ℚ) : Prop := a.2 ≤ b.2

instance : DecidableRel prevLe := fun a b => inferInstanceAs (Decidable (a.2 ≤ b.2))

instance : IsTotal (String × ℚ) prevLe := ⟨fun a b => le_total a.2 b.2⟩

instance : IsTrans (String × ℚ) prevLe := ⟨fun _ _ _ => le_trans⟩

/-- `sort_values("Prevalence (%)", ascending=False)` with the default
`kind="quicksort"`: pandas (`nargsort`) reverses the column, argsorts it
ascending — numpy falls back to insertion sort, which is stable, for
arrays of at most 15 elements, and this frame always has exactly 8 rows —
and then reverses the resulting indexer again.  The net reverse /
stable-ascending-sort / reverse pipeline is reproduced here. -/
def sort_values_desc (l : List (String × ℚ)) : List (String × ℚ) :=
  (List.insertionSort prevLe l.reverse).reverse

/-- `prevalence_table` (source lines 201-210). -/
def prevalence_table (df : List Row) : List (String × ℚ) :=
  sort_values_desc (prev_rows df)

/-- Linear interpolation between the order statistics of an
already-sorted list: with values `x₀ ≤ ... ≤ x_{n-1}` and `h := (n-1)·p`,
the `p`-quantile is `x_i + (h - i)·(x_{i+1} - x_i)` for `i = ⌊h⌋` (when `h`
is the last index the fractional factor is zero, so the out-of-range `getD`
default is never the value). -/
def quantile_sorted (s : List ℚ) (p : ℚ) : ℚ :=
  let h := ((s.length : ℚ) - 1) * p
  let i := (⌊h⌋).toNat
  s.getD i 0 + (h - (⌊h⌋ : ℚ)) * (s.getD (i + 1) (s.getD i 0) - s.getD i 0)

/-- pandas `Series.quantile(p)` with the default linear interpolation, over
the non-missing values sorted ascending. -/
def quantile (xs : List ℚ) (p : ℚ) : ℚ :=
  quantile_sorted (List.insertionSort (· ≤ ·) xs) p

/-- The group labels passed to `pd.cut` (source line 328). -/
def tier_labels : List String := ["Low", "Medium", "High"]

/-- The bin assignment of one present value in `pd.cut`: with sorted bin
edges `b`, `searchsorted(side="left")` counts the edges strictly below the
value; a value equal to the lowest edge is pulled into the first bin
(`include_lowest=True`); values outside the outer edges get `NaN`. -/
def cut_assign (b : List ℚ) (labs : List String) (v : ℚ) : Option String :=
  if v = b.headD 0 then some (labs.headD "")
  else
    let i := b.countP (fun e => decide (e < v))
    if 1 ≤ i ∧ i ≤ labs.length then some (labs.getD (i - 1) "") else none

/-- `pd.cut(values, bins, labels=labs, include_lowest=True,
duplicates="drop")`: duplicate bin edges are dropped (`np.unique`; the
quantile edges are already nondecreasing, so deduplication preserves the
order); pandas then raises `ValueError` when the supplied label list no
longer matches the number of bins. -/
def pd_cut (values : List (Option ℚ)) (bins : List ℚ) (labs : List String) :
    Except String (List (Option String)) :=
  let b := bins.dedup
  if b.length - 1 ≠ labs.length then
    Except.error "Bin labels must be one fewer than the number of bin edges"
  else
    Except.ok (values.map (fun v => v.bind (cut_assign b labs)))

/-- The four tertile cut points (source line 327):
`filtered[life_var].quantile([0, 1/3, 2/3, 1])`, over the non-missing
values of the chosen lifestyle column of the filtered table. -/
def tier_bins (df : List Row) (f : Row → Option ℚ) : List ℚ :=
  [quantile (df.filterMap f) 0, quantile (df.filterMap f) (1/3),
   quantile (df.filterMap f) (2/3), quantile (df.filterMap f) 1]

/-- Source lines 330-337: attach `Lifestyle_Group = pd.cut(...)` to every
row of the filtered table. -/
def tier_assign (df : List Row) (f : Row → Option ℚ) :
    Except String (List (Row × Option String)) :=
  (pd_cut (df.map f) (tier_bins df f) tier_labels).map (fun a => df.zip a)

/-- The member rows of each tier: `groupby("Lifestyle_Group", dropna=True)`
groups by the `pd.cut` categorical, whose categories are the three labels;
with the default `observed=False` every category appears, in category
order, and only the `NaN` group is dropped. -/
def tier_groups (pairs : List (Row × Option String)) : List (String × List Row) :=
  tier_labels.map (fun lab =>
    (lab, (pairs.filter (fun p => p.2 == some lab)).map Prod.fst))

/-- Source lines 340-345: per tier, the mean of `Any_Comorbidity == "Yes"`;
the mean over an unobserved (empty) category is `NaN` (`none`). -/
def group_prev (pairs : List (Row × Option String)) : List (String × Option ℚ) :=
  (tier_groups pairs).map (fun g =>
    (g.1, if g.2.isEmpty then none
     else some ((g.2.countP (fun r => r.Any_Comorbidity == "Yes") : ℚ) / g.2.length)))

/-- The whole "comorbidity prevalence by lifestyle level" pipeline
(source lines 327-345). -/
def lifestyle_tier_prevalence (df : List Row) (f : Row → Option ℚ) :
    Except String (List (String × Option ℚ)) :=
  (tier_assign df f).map group_prev

/-- `METABOLIC_COLS` from the source. -/
def METABOLIC_COLS : List String :=
  ["BMI", "Waist_Circumference", "Total_Cholesterol", "HDL_Cholesterol",
   "LDL_Cholesterol", "Triglycerides", "Serum_Glucose", "Glycohemoglobin",
   "Platelet_Count", "Hemoglobin", "Hematocrit", "Iron_Saturation",
   "Serum_Iron", "Creatinine", "Uric_Acid", "WBC_Count",
   "Diastolic_BP_Average", "Systolic_BP_Average"]

/-- The metabolic block of a participant record
(`filtered[METABOLIC_COLS]`): one possibly missing value per column. -/
abbrev MRow := Fin 18 → Option ℚ

/-- One metabolic column of the projected frame. -/
def mcol (t : List MRow) (i : Fin 18) : List (Option ℚ) := t.map (fun r => r i)

/-- The name of the `i`-th metabolic column. -/
def mname (i : Fin 18) : String := METABOLIC_COLS.getD i.val ""

/-- The pairwise-complete observations of two columns: the row pairs where
both cells are present. -/
def pair_obs (xs ys : List (Option ℚ)) : List (ℚ × ℚ) :=
  (xs.zip ys).filterMap (fun p => p.1.bind (fun a => p.2.map (fun b => (a, b))))

/-- The present values of one column. -/
def obs (xs : List (Option ℚ)) : List ℚ := xs.filterMap id

/-- `n·Σxy − Σx·Σy`: the pairwise covariance scaled by `n²` (the scaling
cancels inside the correlation quotient). -/
def scov (ps : List (ℚ × ℚ)) : ℚ :=
  ps.length * (ps.map (fun p => p.1 * p.2)).sum
    - (ps.map Prod.fst).sum * (ps.map Prod.snd).sum

/-- `n·Σx² − (Σx)²`: the variance scaled by `n²`. -/
def svar (l : List ℚ) : ℚ :=
  l.length * (l.map (fun x => x * x)).sum - l.sum * l.sum

/-- One entry of `DataFrame.corr()` (pandas `nancorr`, `method="pearson"`,
`min_periods=1`): the Pearson coefficient over the pairwise-complete
observations, `NaN` (`none`) when the divisor `sqrt(var_x · var_y)` is
zero — by Cauchy-Schwarz exactly when either column has zero variance
there, which subsumes having fewer than two observations.  pandas computes
`Σdxdy / sqrt(Σdx²·Σdy²)` with centred terms; for `n > 0` that equals the
`n²`-scaled form used here, and for `n = 0` both are `NaN`. -/
noncomputable def corr_entry (xs ys : List (Option ℚ)) : Option ℝ :=
  let ps := pair_obs xs ys
  if svar (ps.map Prod.fst) = 0 ∨ svar (ps.map Prod.snd) = 0 then none
  else some ((scov ps : ℝ) /
    (Real.sqrt ((svar (ps.map Prod.fst) : ℚ) : ℝ) *
     Real.sqrt ((svar (ps.map Prod.snd) : ℚ) : ℝ)))

/-- `corr_df` (source lines 372-373): `corr().stack().reset_index()` — the
square correlation matrix flattened row-major into
(Var1, Var2, Correlation) triples; `stack()` drops the `NaN` entries. -/
noncomputable def corr_stack (t : List MRow) : List (String × String × ℝ) :=
  (List.finRange 18).flatMap (fun i =>
    (List.finRange 18).filterMap (fun j =>
      (corr_entry (mcol t i) (mcol t j)).map (fun c => (mname i, mname j, c))))

/-- A fully populated raw record, the base for the concrete instances
below. -/
def baseRaw : RawRow :=
  { Age := some 40, Gender := some "Male", Ethnicity := some "White",
    Education_Level := some "College", Income_to_Poverty_Ratio := some 1,
    Cigarettes_Per_Day := some 0, Sleep_Hours := some 8,
    Alcohol_Use_Frequency := some 1,
    Physical_Activity_Equivalent_Min := some 100,
    Heart_Attack := some "No", Diabetes := some "No", Stroke := some "No",
    Celiac_Disease := some "No", Arthritis := some "No",
    Liver_Disease := some "No", Asthma := some "No", COPD := some "No" }

/-- `baseRaw` after loading. -/
def baseRow : Row := load_row baseRaw

/-- Four rows whose `Heart_Attack` cells are "Yes", "No", "YES", "no". -/
def df4 : List Row :=
  load_data
    [{ baseRaw with Heart_Attack := some "Yes" },
     { baseRaw with Heart_Attack := some "No" },
     { baseRaw with Heart_Attack := some "YES" },
     { baseRaw with Heart_Attack := some "no" }]

/-- Nine identical rows: every tertile cut point of `Sleep_Hours`
degenerates to the single value 7. -/
def df9 : List Row := List.replicate 9 { baseRow with Sleep_Hours := some 7 }

/-- Two rows with `Sleep_Hours` 0 and 3: the tertile edges are
`[0, 1, 2, 3]` and the "Medium" bin `(1, 2]` is empty. -/
def dfGap : List Row :=
  [{ baseRow with Sleep_Hours := some 0 }, { baseRow with Sleep_Hours := some 3 }]

/-- Three rows with `Sleep_Hours` 0, 3, 6: the tertile edges are
`[0, 2, 4, 6]` and each tier holds one row. -/
def df3 : List Row :=
  [{ baseRow with Sleep_Hours := some 0 }, { baseRow with Sleep_Hours := some 3 },
   { baseRow with Sleep_Hours := some 6 }]

/-- The tier assignment `tier_assign df3 Row.Sleep_Hours` produces. -/
def pairs3 : List (Row × Option String) :=
  [({ baseRow with Sleep_Hours := some 0 }, some "Low"),
   ({ baseRow with Sleep_Hours := some 3 }, some "Medium"),
   ({ baseRow with Sleep_Hours := some 6 }, some "High")]

/-- A one-row table whose `Sleep_Hours` value 7.5 is not a whole number, so
the default slider bounds `int(7.5)..int(7.5) = 7..7` exclude the row. -/
def dfHalf : List Row := [{ baseRow with Sleep_Hours := some (15/2) }]

/-- The widget defaults computed from `dfHalf`. -/
def selHalf : FilterSelection :=
  { age_range := (40, 40), income_range := (1, 1), cig_range := (0, 0),
    sleep_range := (7, 7), alcohol_range := (1, 1), pa_range := (100, 100),
    selected_genders := ["Male"], selected_ethnicities := ["White"],
    selected_edu := ["College"] }

/-- A well-behaved two-row table: whole-number slider bounds, one-decimal
income bounds, no missing cells. -/
def dfNice : List Row :=
  [baseRow, { baseRow with Age := some 60, Gender := some "Female" }]

/-- The widget defaults computed from `dfNice`. -/
def selNice : FilterSelection :=
  { age_range := (40, 60), income_range := (1, 1), cig_range := (0, 0),
    sleep_range := (8, 8), alcohol_range := (1, 1), pa_range := (100, 100),
    selected_genders := ["Male", "Female"], selected_ethnicities := ["White"],
    selected_edu := ["College"] }

/-- A one-row metabolic table: every pairwise variance is zero, so every
correlation entry is `NaN` and `stack()` drops all of them. -/
def mt1 : List MRow := [fun _ => some 0]

/-- A two-row metabolic table with distinct values in every column. -/
def mt2 : List MRow := [fun _ => some 0, fun _ => some 1]

/-- `baseRow` with a missing `Age` cell. -/
def rowNoAge : Row := { baseRow with Age := none }

/-- `baseRaw` with a missing `Heart_Attack` cell. -/
def rawNoHA : RawRow := { baseRaw with Heart_Attack := none }

/-!  Theorems.  -/

theorem load_row_count (x : RawRow) :
    (load_row x).Comorbidity_Count
      = List.countP (fun s => upperStr s == "YES")
          [pyStr x.Heart_Attack, pyStr x.Diabetes, pyStr x.Stroke,
           pyStr x.Celiac_Disease, pyStr x.Arthritis, pyStr x.Liver_Disease,
           pyStr x.Asthma, pyStr x.COPD] := rfl

theorem load_row_any (x : RawRow) :
    (load_row x).Any_Comorbidity
      = if 0 < (load_row x).Comorbidity_Count then "Yes" else "No" := rfl

theorem outcomeField_load_row (x : RawRow) (col : String) (h : col ∈ OUTCOME_COLS) :
    outcomeField (load_row x) col = pyStr (rawOutcome x col) := by
  simp only [OUTCOME_COLS, List.mem_cons, List.not_mem_nil, or_false] at h
  rcases h with rfl | rfl | rfl | rfl | rfl | rfl | rfl | rfl <;> rfl

theorem between_eq_true_iff {v : Option ℚ} {lo hi : ℚ} :
    between v lo hi = true ↔ ∃ x, v = some x ∧ lo ≤ x ∧ x ≤ hi := by
  cases v <;> simp [between]

theorem isin_eq_true_iff {v : Option String} {vals : List String} :
    isin v vals = true ↔ ∃ x, v = some x ∧ x ∈ vals := by
  cases v <;> simp [isin, List.elem_iff]

/-- C1: a row appears in the output of `apply_filters` iff it is a row of
the base table, its `Age`, `Income_to_Poverty_Ratio`, `Cigarettes_Per_Day`,
`Sleep_Hours`, `Alcohol_Use_Frequency` and
`Physical_Activity_Equivalent_Min` cells each hold a value inside the
corresponding closed range, and for each of `Gender`, `Ethnicity`,
`Education_Level` the selected set is empty (no restriction) or the cell
holds one of the selected values. -/
theorem c1_filter_membership (df : List Row) (sel : FilterSelection) (r : Row) :
    r ∈ apply_filters df sel ↔
      r ∈ df
      ∧ (∃ x, r.Age = some x ∧ sel.age_range.1 ≤ x ∧ x ≤ sel.age_range.2)
      ∧ (∃ x, r.Income_to_Poverty_Ratio = some x
          ∧ sel.income_range.1 ≤ x ∧ x ≤ sel.income_range.2)
      ∧ (∃ x, r.Cigarettes_Per_Day = some x
          ∧ sel.cig_range.1 ≤ x ∧ x ≤ sel.cig_range.2)
      ∧ (∃ x, r.Sleep_Hours = some x
          ∧ sel.sleep_range.1 ≤ x ∧ x ≤ sel.sleep_range.2)
      ∧ (∃ x, r.Alcohol_Use_Frequency = some x
          ∧ sel.alcohol_range.1 ≤ x ∧ x ≤ sel.alcohol_range.2)
      ∧ (∃ x, r.Physical_Activity_Equivalent_Min = some x
          ∧ sel.pa_range.1 ≤ x ∧ x ≤ sel.pa_range.2)
      ∧ (sel.selected_genders = []
          ∨ ∃ g, r.Gender = some g ∧ g ∈ sel.selected_genders)
      ∧ (sel.selected_ethnicities = []
          ∨ ∃ e, r.Ethnicity = some e ∧ e ∈ sel.selected_ethnicities)
      ∧ (sel.selected_edu = []
          ∨ ∃ e, r.Education_Level = some e ∧ e ∈ sel.selected_edu) := by
  simp only [apply_filters, List.mem_filter, row_mask, Bool.and_eq_true,
    Bool.or_eq_true, between_eq_true_iff, isin_eq_true_iff, List.isEmpty_iff,
    and_assoc]

/-- C9: a row with a missing value in any of the six numeric filter columns
is excluded by `apply_filters` whatever the selection is — `between` is
`False` on `NaN`. -/
theorem c9_missing_numeric_excluded (df : List Row) (sel : FilterSelection) (r : Row)
    (h : r.Age = none ∨ r.Income_to_Poverty_Ratio = none
      ∨ r.Cigarettes_Per_Day = none ∨ r.Sleep_Hours = none
      ∨ r.Alcohol_Use_Frequency = none
      ∨ r.Physical_Activity_Equivalent_Min = none) :
    r ∉ apply_filters df sel := by
  intro hmem
  rw [apply_filters, List.mem_filter] at hmem
  have hm := hmem.2
  rcases h with h | h | h | h | h | h <;> simp [row_mask, h, between] at hm

theorem c9_missing_numeric_excluded_witness :
    rowNoAge.Age = none ∧ rowNoAge ∉ apply_filters [rowNoAge] selNice :=
  ⟨rfl, c9_missing_numeric_excluded [rowNoAge] selNice rowNoAge (Or.inl rfl)⟩

/-- C2: for every loaded record, `Comorbidity_Count` equals the number of
the 8 outcome cells that are case-insensitively equal to "Yes", it is at
most 8, and `Any_Comorbidity` is "Yes" exactly when the count is
positive. -/
theorem c2_comorbidity_consistent (x : RawRow) :
    (load_row x).Comorbidity_Count
        = OUTCOME_COLS.countP
            (fun col => upperStr (outcomeField (load_row x) col) == upperStr "Yes")
      ∧ (load_row x).Comorbidity_Count ≤ 8
      ∧ ((load_row x).Any_Comorbidity = "Yes" ↔ 0 < (load_row x).Comorbidity_Count) := by
  refine ⟨?_, ?_, ?_⟩
  · rw [load_row_count]
    simp only [OUTCOME_COLS, List.countP_cons, List.countP_nil]
    rw [outcomeField_load_row x "Heart_Attack" (by decide),
      outcomeField_load_row x "Diabetes" (by decide),
      outcomeField_load_row x "Stroke" (by decide),
      outcomeField_load_row x "Celiac_Disease" (by decide),
      outcomeField_load_row x "Arthritis" (by decide),
      outcomeField_load_row x "Liver_Disease" (by decide),
      outcomeField_load_row x "Asthma" (by decide),
      outcomeField_load_row x "COPD" (by decide)]
    rfl
  · rw [load_row_count]
    have h := List.countP_le_length (fun s => upperStr s == "YES")
      (l := [pyStr x.Heart_Attack, pyStr x.Diabetes, pyStr x.Stroke,
        pyStr x.Celiac_Disease, pyStr x.Arthritis, pyStr x.Liver_Disease,
        pyStr x.Asthma, pyStr x.COPD])
    simpa using h
  · rw [load_row_any]
    split_ifs with h <;> simp [h]

/-- C10: an outcome cell that is missing in the raw data is coerced to the
literal string "nan" by `astype(str)`; it never matches "Yes"
case-insensitively, it adds nothing to the "Yes" count of its column, and
its row still counts toward the prevalence denominator (row count). -/
theorem c10_missing_outcome_nan (x : RawRow) (col : String)
    (hcol : col ∈ OUTCOME_COLS) (hmiss : rawOutcome x col = none) :
    outcomeField (load_row x) col = "nan"
    ∧ upperStr (outcomeField (load_row x) col) ≠ "YES"
    ∧ ∀ df : List Row,
        (load_row x :: df).countP (fun r => upperStr (outcomeField r col) == "YES")
          = df.countP (fun r => upperStr (outcomeField r col) == "YES")
        ∧ (load_row x :: df).length = df.length + 1 := by
  have h1 : outcomeField (load_row x) col = "nan" := by
    rw [outcomeField_load_row x col hcol, hmiss]; rfl
  refine ⟨h1, ?_, ?_⟩
  · rw [h1]; decide
  · intro df
    refine ⟨List.countP_cons_of_neg _ _ ?_, by simp⟩
    rw [h1]; decide

theorem c10_missing_outcome_nan_witness :
    rawOutcome rawNoHA "Heart_Attack" = none
    ∧ outcomeField (load_row rawNoHA) "Heart_Attack" = "nan"
    ∧ [load_row rawNoHA].countP
        (fun r => upperStr (outcomeField r "Heart_Attack") == "YES") = 0
    ∧ [load_row rawNoHA].length = 1 := by
  have h := c10_missing_outcome_nan rawNoHA "Heart_Attack" (by decide) rfl
  exact ⟨rfl, h.1, by simpa using (h.2.2 []).1, rfl⟩

/-- C3: for every non-empty table and every outcome column, the prevalence
table holds a row labelled with the column's human-readable name whose
value is `100 · (number of rows case-insensitively "Yes") / (total rows)`
rounded to one decimal. -/
theorem c3_prevalence_formula (df : List Row) (hdf : df ≠ []) (col : String)
    (hcol : col ∈ OUTCOME_COLS) :
    (nice_label col,
      round1 ((df.countP (fun r => upperStr (outcomeField r col) == "YES") : ℚ)
        / df.length * 100)) ∈ prevalence_table df := by
  have h : _ ∈ prev_rows df := List.mem_map_of_mem
    (fun col => (nice_label col,
      round1 ((df.countP (fun r => upperStr (outcomeField r col) == "YES") : ℚ)
        / df.length * 100))) hcol
  rw [prevalence_table, sort_values_desc, List.mem_reverse,
    List.mem_insertionSort, List.mem_reverse]
  exact h

theorem c3_prevalence_formula_witness :
    df4 ≠ [] ∧ ("Heart Attack", (50 : ℚ)) ∈ prevalence_table df4 := by
  have h := c3_prevalence_formula df4 (by decide) "Heart_Attack" (by decide)
  have e : (nice_label "Heart_Attack",
      round1 ((df4.countP (fun r => upperStr (outcomeField r "Heart_Attack") == "YES") : ℚ)
        / df4.length * 100)) = ("Heart Attack", (50 : ℚ)) := by
    with_unfolding_all rfl
  exact ⟨by decide, e ▸ h⟩

/-- C5 (code bug): on a table where the chosen lifestyle column is constant
(nine rows with Sleep_Hours 7), all four quantile cut points coincide;
`pd.cut(..., duplicates="drop")` drops the duplicate edges but the three
fixed labels then no longer match, so pandas raises `ValueError` — the
pipeline errors out instead of returning the single collapsed "Low" group
the spec describes. -/
theorem c5_degenerate_bins_raise :
    lifestyle_tier_prevalence df9 Row.Sleep_Hours
      = Except.error "Bin labels must be one fewer than the number of bin edges" := by
  with_unfolding_all rfl

theorem filter_orderedInsert_prevLe (q : ℚ) (a : String × ℚ) (L : List (String × ℚ)) :
    (List.orderedInsert prevLe a L).filter (fun p => decide (p.2 = q)) =
      if a.2 = q then a :: L.filter (fun p => decide (p.2 = q))
      else L.filter (fun p => decide (p.2 = q)) := by
  have hL : L.filter (fun p => decide (p.2 = q))
      = (List.takeWhile (fun b => decide ¬prevLe a b) L).filter (fun p => decide (p.2 = q))
        ++ (List.dropWhile (fun b => decide ¬prevLe a b) L).filter (fun p => decide (p.2 = q)) := by
    conv_lhs => rw [← List.takeWhile_append_dropWhile (fun b => decide ¬prevLe a b) L]
    rw [List.filter_append]
  rw [List.orderedInsert_eq_take_drop, List.filter_append, List.filter_cons]
  by_cases h : a.2 = q
  · have htake : (List.takeWhile (fun b => decide ¬prevLe a b) L).filter
        (fun p => decide (p.2 = q)) = [] := by
      rw [List.filter_eq_nil_iff]
      intro p hp
      have hpb := List.mem_takeWhile_imp hp
      simp only [decide_eq_true_eq] at hpb ⊢
      intro hpq
      exact hpb (show prevLe a p from le_of_eq (h.trans hpq.symm))
    have hc : (decide (a.2 = q)) = true := by simp [h]
    rw [hc, if_pos rfl, if_pos h, hL, htake]
    simp
  · have hc : (decide (a.2 = q)) = false := by simp [h]
    rw [hc, if_neg h, hL]
    simp

theorem filter_insertionSort_prevLe (q : ℚ) (l : List (String × ℚ)) :
    (List.insertionSort prevLe l).filter (fun p => decide (p.2 = q))
      = l.filter (fun p => decide (p.2 = q)) := by
  induction l with
  | nil => rfl
  | cons a l ih =>
    rw [List.insertionSort, filter_orderedInsert_prevLe, List.filter_cons]
    by_cases h : a.2 = q <;> simp [h, ih]

theorem filter_sort_values_desc (q : ℚ) (l : List (String × ℚ)) :
    (sort_values_desc l).filter (fun p => decide (p.2 = q))
      = l.filter (fun p => decide (p.2 = q)) := by
  rw [sort_values_desc, List.filter_reverse, filter_insertionSort_prevLe,
    List.filter_reverse, List.reverse_reverse]

/-- C7: for every non-empty table the prevalence table has exactly 8 rows,
sorted by prevalence in descending order, and the sort is stable: for every
prevalence value, the rows carrying it appear in the same order as in the
unsorted `prev_rows` list, which is built in `OUTCOME_COLS` declaration
order. -/
theorem c7_prevalence_sorted_stable (df : List Row) (hdf : df ≠ []) :
    (prevalence_table df).length = 8
    ∧ List.Pairwise (fun a b : String × ℚ => b.2 ≤ a.2) (prevalence_table df)
    ∧ ∀ q : ℚ, (prevalence_table df).filter (fun p => decide (p.2 = q))
        = (prev_rows df).filter (fun p => decide (p.2 = q)) := by
  refine ⟨?_, ?_, fun q => filter_sort_values_desc q (prev_rows df)⟩
  · rw [prevalence_table, sort_values_desc, List.length_reverse,
      List.length_insertionSort, List.length_reverse, prev_rows,
      List.length_map]
    rfl
  · rw [prevalence_table, sort_values_desc, List.pairwise_reverse]
    exact List.sorted_insertionSort prevLe (prev_rows df).reverse

theorem c7_prevalence_sorted_stable_witness :
    df4 ≠ [] ∧ (prevalence_table df4).length = 8 :=
  ⟨by decide, (c7_prevalence_sorted_stable df4 (by decide)).1⟩

theorem foldl_min_le (xs : List ℚ) :
    ∀ (x y : ℚ), (y = x ∨ y ∈ xs) → xs.foldl min x ≤ y := by
  induction xs with
  | nil =>
    intro x y h
    rcases h with rfl | h
    · exact le_refl y
    · cases h
  | cons z zs ih =>
    intro x y h
    rcases h with rfl | h
    · exact le_trans (ih (min y z) (min y z) (Or.inl rfl)) (min_le_left y z)
    · rcases List.mem_cons.mp h with rfl | h
      · exact le_trans (ih (min x y) (min x y) (Or.inl rfl)) (min_le_right x y)
      · exact ih (min x z) y (Or.inr h)

theorem le_foldl_max (xs : List ℚ) :
    ∀ (x y : ℚ), (y = x ∨ y ∈ xs) → y ≤ xs.foldl max x := by
  induction xs with
  | nil =>
    intro x y h
    rcases h with rfl | h
    · exact le_refl y
    · cases h
  | cons z zs ih =>
    intro x y h
    rcases h with rfl | h
    · exact le_trans (le_max_left y z) (ih (max y z) (max y z) (Or.inl rfl))
    · rcases List.mem_cons.mp h with rfl | h
      · exact le_trans (le_max_right x y) (ih (max x y) (max x y) (Or.inl rfl))
      · exact ih (max x z) y (Or.inr h)

theorem colMin_le (df : List Row) (f : Row → Option ℚ) (m : ℚ)
    (hm : colMin df f = some m) (r : Row) (hr : r ∈ df) (x : ℚ)
    (hx : f r = some x) : m ≤ x := by
  have hxm : x ∈ df.filterMap f := List.mem_filterMap.mpr ⟨r, hr, hx⟩
  cases hfm : df.filterMap f with
  | nil => rw [hfm] at hxm; cases hxm
  | cons a as =>
    rw [colMin, hfm] at hm
    rw [hfm] at hxm
    cases hm
    exact foldl_min_le as a x (List.mem_cons.mp hxm)

theorem le_colMax (df : List Row) (f : Row → Option ℚ) (m : ℚ)
    (hm : colMax df f = some m) (r : Row) (hr : r ∈ df) (x : ℚ)
    (hx : f r = some x) : x ≤ m := by
  have hxm : x ∈ df.filterMap f := List.mem_filterMap.mpr ⟨r, hr, hx⟩
  cases hfm : df.filterMap f with
  | nil => rw [hfm] at hxm; cases hxm
  | cons a as =>
    rw [colMax, hfm] at hm
    rw [hfm] at hxm
    cases hm
    exact le_foldl_max as a x (List.mem_cons.mp hxm)

theorem pyIntQ_den_one (q : ℚ) (h : q.den = 1) : pyIntQ q = q := by
  have hq : (q.num : ℚ) = q := by
    rw [← Rat.num_div_den q, h]
    norm_num
  rw [pyIntQ, pyInt]
  split_ifs with h0
  · rw [← hq, Int.floor_intCast]
  · rw [← hq, ← Int.cast_neg, Int.floor_intCast, neg_neg]

theorem all_isInt1_den (o : Option ℚ) (q : ℚ) (h : o.all isInt1 = true)
    (hq : o = some q) : q.den = 1 := by
  rw [hq, Option.all_some] at h
  simpa [isInt1] using h

theorem all_round1_fix (o : Option ℚ) (q : ℚ)
    (h : o.all (fun q => decide (round1 q = q)) = true) (hq : o = some q) :
    round1 q = q := by
  rw [hq, Option.all_some] at h
  exact of_decide_eq_true h

theorem between_default (df : List Row) (f : Row → Option ℚ) (m M : ℚ)
    (hm : colMin df f = some m) (hM : colMax df f = some M)
    (hdm : m.den = 1) (hdM : M.den = 1) (r : Row) (hr : r ∈ df) (x : ℚ)
    (hx : f r = some x) : between (f r) (pyIntQ m) (pyIntQ M) = true := by
  have h1 := colMin_le df f m hm r hr x hx
  have h2 := le_colMax df f M hM r hr x hx
  rw [hx, pyIntQ_den_one m hdm, pyIntQ_den_one M hdM, between]
  simp [h1, h2]

theorem between_income (df : List Row) (f : Row → Option ℚ) (m M : ℚ)
    (hm : colMin df f = some m) (hM : colMax df f = some M)
    (hrm : round1 m = m) (hrM : round1 M = M) (r : Row) (hr : r ∈ df) (x : ℚ)
    (hx : f r = some x) : between (f r) (round1 m) (round1 M) = true := by
  have h1 := colMin_le df f m hm r hr x hx
  have h2 := le_colMax df f M hM r hr x hx
  rw [hx, hrm, hrM, between]
  simp [h1, h2]

theorem isin_observed (df : List Row) (f : Row → Option String) (r : Row)
    (hr : r ∈ df) (g : String) (hg : f r = some g) :
    isin (f r) (observed df f) = true := by
  rw [hg]
  show (observed df f).contains g = true
  exact List.elem_iff.mpr (List.mem_dedup.mpr (List.mem_filterMap.mpr ⟨r, hr, hg⟩))

/-- C6 (amended): when the observed min and max of each integer-slider
column are whole numbers, the observed income bounds are unchanged by
rounding to one decimal, and no filterable cell of any row is missing, the
default widget selection spans every observed value and `apply_filters`
with it returns the whole base table.  (The unamended claim fails:
`int()` truncation can move a default slider bound strictly inside the
observed range, see the counterexample.) -/
theorem c6_default_selection_spans (df : List Row) (sel : FilterSelection)
    (hsel : default_selection df = some sel)
    (hdef : ∀ r ∈ df,
        r.Age.isSome = true ∧ r.Income_to_Poverty_Ratio.isSome = true
        ∧ r.Cigarettes_Per_Day.isSome = true ∧ r.Sleep_Hours.isSome = true
        ∧ r.Alcohol_Use_Frequency.isSome = true
        ∧ r.Physical_Activity_Equivalent_Min.isSome = true
        ∧ r.Gender.isSome = true ∧ r.Ethnicity.isSome = true
        ∧ r.Education_Level.isSome = true)
    (hint : (colMin df Row.Age).all isInt1 = true
        ∧ (colMax df Row.Age).all isInt1 = true
        ∧ (colMin df Row.Cigarettes_Per_Day).all isInt1 = true
        ∧ (colMax df Row.Cigarettes_Per_Day).all isInt1 = true
        ∧ (colMin df Row.Sleep_Hours).all isInt1 = true
        ∧ (colMax df Row.Sleep_Hours).all isInt1 = true
        ∧ (colMin df Row.Alcohol_Use_Frequency).all isInt1 = true
        ∧ (colMax df Row.Alcohol_Use_Frequency).all isInt1 = true
        ∧ (colMin df Row.Physical_Activity_Equivalent_Min).all isInt1 = true
        ∧ (colMax df Row.Physical_Activity_Equivalent_Min).all isInt1 = true)
    (hinc : (colMin df Row.Income_to_Poverty_Ratio).all
          (fun q => decide (round1 q = q)) = true
        ∧ (colMax df Row.Income_to_Poverty_Ratio).all
          (fun q => decide (round1 q = q)) = true) :
    apply_filters df sel = df := by
  simp only [default_selection, Option.bind_eq_some, Option.some.injEq] at hsel
  obtain ⟨a0, ha0, a1, ha1, i0, hi0, i1, hi1, c0, hc0, c1, hc1, s0, hs0, s1,
    hs1, l0, hl0, l1, hl1, p0, hp0, p1, hp1, hselEq⟩ := hsel
  subst hselEq
  rw [apply_filters, List.filter_eq_self]
  intro r hr
  obtain ⟨hAge, hInc, hCig, hSle, hAlc, hPA, hGen, hEth, hEdu⟩ := hdef r hr
  obtain ⟨xa, hxa⟩ := Option.isSome_iff_exists.mp hAge
  obtain ⟨xi, hxi⟩ := Option.isSome_iff_exists.mp hInc
  obtain ⟨xc, hxc⟩ := Option.isSome_iff_exists.mp hCig
  obtain ⟨xs, hxs⟩ := Option.isSome_iff_exists.mp hSle
  obtain ⟨xl, hxl⟩ := Option.isSome_iff_exists.mp hAlc
  obtain ⟨xp, hxp⟩ := Option.isSome_iff_exists.mp hPA
  obtain ⟨g, hg⟩ := Option.isSome_iff_exists.mp hGen
  obtain ⟨e, he⟩ := Option.isSome_iff_exists.mp hEth
  obtain ⟨d, hd⟩ := Option.isSome_iff_exists.mp hEdu
  rw [row_mask]
  simp only [Bool.and_eq_true, Bool.or_eq_true]
  refine ⟨⟨⟨⟨⟨⟨⟨⟨?_, ?_⟩, ?_⟩, ?_⟩, ?_⟩, ?_⟩, ?_⟩, ?_⟩, ?_⟩
  · exact between_default df Row.Age a0 a1 ha0 ha1
      (all_isInt1_den _ a0 hint.1 ha0) (all_isInt1_den _ a1 hint.2.1 ha1)
      r hr xa hxa
  · exact between_income df Row.Income_to_Poverty_Ratio i0 i1 hi0 hi1
      (all_round1_fix _ i0 hinc.1 hi0) (all_round1_fix _ i1 hinc.2 hi1)
      r hr xi hxi
  · exact between_default df Row.Cigarettes_Per_Day c0 c1 hc0 hc1
      (all_isInt1_den _ c0 hint.2.2.1 hc0) (all_isInt1_den _ c1 hint.2.2.2.1 hc1)
      r hr xc hxc
  · exact between_default df Row.Sleep_Hours s0 s1 hs0 hs1
      (all_isInt1_den _ s0 hint.2.2.2.2.1 hs0)
      (all_isInt1_den _ s1 hint.2.2.2.2.2.1 hs1) r hr xs hxs
  · exact between_default df Row.Alcohol_Use_Frequency l0 l1 hl0 hl1
      (all_isInt1_den _ l0 hint.2.2.2.2.2.2.1 hl0)
      (all_isInt1_den _ l1 hint.2.2.2.2.2.2.2.1 hl1) r hr xl hxl
  · exact between_default df Row.Physical_Activity_Equivalent_Min p0 p1 hp0 hp1
      (all_isInt1_den _ p0 hint.2.2.2.2.2.2.2.2.1 hp0)
      (all_isInt1_den _ p1 hint.2.2.2.2.2.2.2.2.2 hp1) r hr xp hxp
  · exact Or.inr (isin_observed df Row.Gender r hr g hg)
  · exact Or.inr (isin_observed df Row.Ethnicity r hr e he)
  · exact Or.inr (isin_observed df Row.Education_Level r hr d hd)

theorem c6_default_selection_spans_witness :
    default_selection dfNice = some selNice
    ∧ apply_filters dfNice selNice = dfNice := by
  refine ⟨by with_unfolding_all rfl,
    c6_default_selection_spans dfNice selNice (by with_unfolding_all rfl)
      (by decide) ?_ ?_⟩
  · refine ⟨?_, ?_, ?_, ?_, ?_, ?_, ?_, ?_, ?_, ?_⟩ <;> with_unfolding_all decide
  · exact ⟨by with_unfolding_all decide, by with_unfolding_all decide⟩

/-- C6 counterexample: on a one-row table whose `Sleep_Hours` value is 7.5,
the default sleep slider is `int(7.5)..int(7.5) = 7..7`, so the default
selection excludes the row and `apply_filters` returns an empty table
instead of the whole base table. -/
theorem c6_counterexample :
    default_selection dfHalf = some selHalf
    ∧ apply_filters dfHalf selHalf = [] ∧ dfHalf ≠ [] := by
  exact ⟨by with_unfolding_all rfl, by with_unfolding_all rfl, by decide⟩

theorem quantile_sorted_zero (s : List ℚ) : quantile_sorted s 0 = s.getD 0 0 := by
  simp [quantile_sorted]

theorem quantile_sorted_one (s : List ℚ) (hs : s ≠ []) :
    quantile_sorted s 1 = s.getD (s.length - 1) 0 := by
  have hn : 1 ≤ s.length := List.length_pos.mpr hs
  have hcast : ((s.length : ℚ) - 1) = (((s.length : ℤ) - 1 : ℤ) : ℚ) := by
    push_cast
    ring
  have htn : ((s.length : ℤ) - 1).toNat = s.length - 1 := by omega
  simp only [quantile_sorted, mul_one, hcast, Int.floor_intCast, htn,
    sub_self, zero_mul, add_zero]

theorem sorted_getD_zero_le (s : List ℚ) (hs : List.Sorted (· ≤ ·) s) (v : ℚ)
    (hv : v ∈ s) : s.getD 0 0 ≤ v := by
  cases s with
  | nil => cases hv
  | cons a t =>
    rw [List.getD_cons_zero]
    rcases List.mem_cons.mp hv with rfl | hv
    · exact le_refl v
    · exact (List.sorted_cons.mp hs).1 v hv

theorem le_sorted_getD_last (s : List ℚ) :
    List.Sorted (· ≤ ·) s → ∀ v ∈ s, v ≤ s.getD (s.length - 1) 0 := by
  induction s with
  | nil => intro _ v hv; cases hv
  | cons a t ih =>
    intro hs v hv
    cases t with
    | nil =>
      rcases List.mem_cons.mp hv with rfl | hv
      · simp
      · cases hv
    | cons b t2 =>
      have hstep : (a :: b :: t2).getD ((a :: b :: t2).length - 1) 0
          = (b :: t2).getD ((b :: t2).length - 1) 0 := by
        simp [List.getD_cons_succ]
      rw [hstep]
      rcases List.mem_cons.mp hv with rfl | hv
      · exact le_trans ((List.sorted_cons.mp hs).1 b (by simp))
          (ih (List.sorted_cons.mp hs).2 b (by simp))
      · exact ih (List.sorted_cons.mp hs).2 v hv

theorem quantile_zero_le (xs : List ℚ) (v : ℚ) (hv : v ∈ xs) :
    quantile xs 0 ≤ v := by
  rw [quantile, quantile_sorted_zero]
  exact sorted_getD_zero_le _ (List.sorted_insertionSort _ xs) v
    ((List.mem_insertionSort _).mpr hv)

theorem le_quantile_one (xs : List ℚ) (v : ℚ) (hv : v ∈ xs) :
    v ≤ quantile xs 1 := by
  have hvm := (List.mem_insertionSort (α := ℚ) (· ≤ ·)).mpr hv
  have hne : List.insertionSort (· ≤ ·) xs ≠ [] := by
    intro h
    rw [h] at hvm
    cases hvm
  rw [quantile, quantile_sorted_one _ hne]
  exact le_sorted_getD_last _ (List.sorted_insertionSort _ xs) v hvm

theorem pd_cut_ok (values : List (Option ℚ)) (bins : List ℚ)
    (labs : List String) (out : List (Option String))
    (h : pd_cut values bins labs = Except.ok out) :
    bins.dedup.length - 1 = labs.length
    ∧ out = values.map (fun v => v.bind (cut_assign bins.dedup labs)) := by
  rw [pd_cut] at h
  split_ifs at h with hc
  cases h
  refine ⟨?_, rfl⟩
  omega

theorem tier_assign_ok (df : List Row) (f : Row → Option ℚ)
    (pairs : List (Row × Option String))
    (h : tier_assign df f = Except.ok pairs) :
    (tier_bins df f).dedup = tier_bins df f
    ∧ pairs = df.zip ((df.map f).map
        (fun v => v.bind (cut_assign (tier_bins df f) tier_labels))) := by
  rw [tier_assign] at h
  cases hc : pd_cut (df.map f) (tier_bins df f) tier_labels with
  | error e => rw [hc] at h; cases h
  | ok a =>
    rw [hc] at h
    simp only [Except.map] at h
    obtain ⟨hlen, ha⟩ := pd_cut_ok _ _ _ a hc
    have hded : (tier_bins df f).dedup = tier_bins df f := by
      have hsub := List.dedup_sublist (tier_bins df f)
      have h4 : (tier_bins df f).length = 4 := rfl
      have h3 : tier_labels.length = 3 := rfl
      have hle := hsub.length_le
      have : (tier_bins df f).dedup.length = 4 := by omega
      exact hsub.eq_of_length (by rw [this, h4])
    have hpairs : pairs = df.zip a := (Except.ok.inj h).symm
    refine ⟨hded, ?_⟩
    rw [hpairs, ha, hded]

theorem cut_assign_total (b0 b1 b2 b3 : ℚ) (v : ℚ) (h0 : b0 ≤ v)
    (h3 : v ≤ b3) :
    ∃ lab ∈ tier_labels, cut_assign [b0, b1, b2, b3] tier_labels v = some lab := by
  rw [cut_assign]
  by_cases hv : v = [b0, b1, b2, b3].headD 0
  · rw [if_pos hv]
    exact ⟨"Low", by simp [tier_labels], rfl⟩
  · rw [if_neg hv]
    have hb0 : b0 < v := lt_of_le_of_ne h0 (fun he => hv (by simp [← he]))
    have hge1 : 1 ≤ List.countP (fun e => decide (e < v)) [b0, b1, b2, b3] := by
      have := List.countP_cons_of_pos (fun e => decide (e < v))
        (a := b0) [b1, b2, b3] (by simpa using hb0)
      omega
    have hle3 : List.countP (fun e => decide (e < v)) [b0, b1, b2, b3] ≤ 3 := by
      have hsplit : List.countP (fun e => decide (e < v)) [b0, b1, b2, b3]
          = List.countP (fun e => decide (e < v)) [b0, b1, b2] := by
        rw [show [b0, b1, b2, b3] = [b0, b1, b2] ++ [b3] from rfl,
          List.countP_append]
        simp [not_lt.mpr h3]
      rw [hsplit]
      exact le_trans (List.countP_le_length _) (by simp)
    rw [if_pos ⟨hge1, hle3⟩]
    refine ⟨tier_labels.getD
      (List.countP (fun e => decide (e < v)) [b0, b1, b2, b3] - 1) "", ?_, rfl⟩
    interval_cases h :
      List.countP (fun e => decide (e < v)) [b0, b1, b2, b3] <;> decide

theorem zip_map_self {α : Type _} {β : Type _} (l : List α) (g : α → β) :
    l.zip (l.map g) = l.map (fun r => (r, g r)) := by
  induction l with
  | nil => rfl
  | cons a t ih => simp [List.zip_cons_cons, ih]

theorem tier_assign_pairs (df : List Row) (f : Row → Option ℚ)
    (pairs : List (Row × Option String))
    (hok : tier_assign df f = Except.ok pairs) :
    pairs = df.map (fun r =>
      (r, (f r).bind (cut_assign (tier_bins df f) tier_labels))) := by
  obtain ⟨hded, hp⟩ := tier_assign_ok df f pairs hok
  rw [hp, List.map_map]
  exact zip_map_self df _

theorem tier_total (df : List Row) (f : Row → Option ℚ) (r : Row)
    (hr : r ∈ df) (hdef : (f r).isSome = true) :
    ∃ lab ∈ tier_labels,
      (f r).bind (cut_assign (tier_bins df f) tier_labels) = some lab := by
  obtain ⟨v, hv⟩ := Option.isSome_iff_exists.mp hdef
  rw [hv, Option.some_bind]
  have hvm : v ∈ df.filterMap f := List.mem_filterMap.mpr ⟨r, hr, hv⟩
  have h0 := quantile_zero_le (df.filterMap f) v hvm
  have h3 := le_quantile_one (df.filterMap f) v hvm
  exact cut_assign_total _ _ _ _ v h0 h3

theorem count_group (df : List Row) (asg : Row → Option String) (lab : String)
    (r : Row) :
    List.count r (((df.map (fun x => (x, asg x))).filter
        (fun p => p.2 == some lab)).map Prod.fst)
      = if asg r = some lab then List.count r df else 0 := by
  rw [List.filter_map, List.map_map]
  have hcomp : (Prod.fst ∘ fun x : Row => (x, asg x)) = id := rfl
  have hpred : ((fun p : Row × Option String => p.2 == some lab)
      ∘ fun x : Row => (x, asg x)) = fun x : Row => asg x == some lab := rfl
  rw [hcomp, hpred, List.map_id]
  by_cases h : asg r = some lab
  · rw [if_pos h]
    exact List.count_filter (by simpa using h)
  · rw [if_neg h, List.count_eq_zero]
    intro hmem
    have hpr := List.of_mem_filter hmem
    simp only [beq_iff_eq] at hpr
    exact h hpr

/-- C8 (amended): when the tier pipeline succeeds (the tertile cut points
are distinct, otherwise `pd.cut` raises) and the chosen lifestyle column
has no missing value, the three groups partition the table — every row is
counted exactly once across the groups; every reported (non-`NaN`)
prevalence lies in [0, 1]; and the result always reports all three labels
in order: a tier with zero members is reported with an undefined (`NaN`)
prevalence rather than omitted. -/
theorem c8_tier_partition (df : List Row) (f : Row → Option ℚ)
    (pairs : List (Row × Option String))
    (hok : tier_assign df f = Except.ok pairs)
    (hdef : ∀ r ∈ df, (f r).isSome = true) :
    (∀ r : Row, (((tier_groups pairs).map Prod.snd).flatten).count r = df.count r)
    ∧ (∀ lab q, (lab, some q) ∈ group_prev pairs → 0 ≤ q ∧ q ≤ 1)
    ∧ (group_prev pairs).map Prod.fst = tier_labels := by
  have hpairs := tier_assign_pairs df f pairs hok
  refine ⟨?_, ?_, ?_⟩
  · intro r
    have hexp : ((tier_groups pairs).map Prod.snd).flatten
        = (pairs.filter (fun p => p.2 == some "Low")).map Prod.fst
          ++ ((pairs.filter (fun p => p.2 == some "Medium")).map Prod.fst
          ++ ((pairs.filter (fun p => p.2 == some "High")).map Prod.fst ++ [])) := rfl
    rw [hexp, hpairs]
    simp only [List.count_append, List.append_nil, List.count_nil]
    rw [count_group df (fun x => (f x).bind
        (cut_assign (tier_bins df f) tier_labels)) "Low" r,
      count_group df (fun x => (f x).bind
        (cut_assign (tier_bins df f) tier_labels)) "Medium" r,
      count_group df (fun x => (f x).bind
        (cut_assign (tier_bins df f) tier_labels)) "High" r]
    by_cases hr : r ∈ df
    · obtain ⟨lab, hlab, he⟩ := tier_total df f r hr (hdef r hr)
      simp only [tier_labels, List.mem_cons, List.not_mem_nil, or_false] at hlab
      rcases hlab with rfl | rfl | rfl <;> simp [he]
    · have h0 : df.count r = 0 := List.count_eq_zero.mpr hr
      rw [h0]
      split_ifs <;> simp [h0]
  · intro lab q hmem
    simp only [group_prev, List.mem_map] at hmem
    obtain ⟨g, hg, heq⟩ := hmem
    have h2 := congrArg Prod.snd heq
    by_cases hge : g.2.isEmpty = true
    · rw [if_pos hge] at h2
      exact absurd h2 (by simp)
    · rw [if_neg hge] at h2
      have hq : ((g.2.countP (fun r => r.Any_Comorbidity == "Yes") : ℚ) / g.2.length)
          = q := Option.some.inj h2
      have hne : g.2 ≠ [] := fun he => hge (List.isEmpty_iff.mpr he)
      have hlen : 0 < g.2.length := List.length_pos.mpr hne
      constructor
      · rw [← hq]
        exact div_nonneg (Nat.cast_nonneg _) (Nat.cast_nonneg _)
      · rw [← hq, div_le_one (by exact_mod_cast hlen)]
        exact_mod_cast List.countP_le_length
          (fun r => r.Any_Comorbidity == "Yes") (l := g.2)
  · simp only [group_prev, tier_groups, List.map_map, Function.comp]
    exact List.map_id' tier_labels

theorem c8_tier_partition_witness :
    tier_assign df3 Row.Sleep_Hours = Except.ok pairs3
    ∧ (((tier_groups pairs3).map Prod.snd).flatten).count
        { baseRow with Sleep_Hours := some 0 }
      = df3.count { baseRow with Sleep_Hours := some 0 }
    ∧ (group_prev pairs3).map Prod.fst = tier_labels := by
  have hok : tier_assign df3 Row.Sleep_Hours = Except.ok pairs3 := by
    with_unfolding_all rfl
  have h := c8_tier_partition df3 Row.Sleep_Hours pairs3 hok (by decide)
  exact ⟨hok, h.1 _, h.2.2⟩

/-- C8 counterexample: on a two-row table with `Sleep_Hours` 0 and 3 the
tertile edges are `[0, 1, 2, 3]` and the "Medium" bin `(1, 2]` holds no
row, yet the pipeline reports the "Medium" group (with an undefined `NaN`
prevalence, outside [0, 1]) instead of omitting the empty group. -/
theorem c8_counterexample :
    lifestyle_tier_prevalence dfGap Row.Sleep_Hours
      = Except.ok [("Low", some 0), ("Medium", none), ("High", some 0)] := by
  with_unfolding_all rfl

theorem pair_obs_symm (xs ys : List (Option ℚ)) :
    pair_obs ys xs = (pair_obs xs ys).map Prod.swap := by
  rw [pair_obs, pair_obs, ← List.zip_swap xs ys, List.filterMap_map,
    List.map_filterMap]
  congr 1
  funext p
  rcases p with ⟨a, b⟩
  cases a <;> cases b <;> rfl

theorem scov_map_swap (ps : List (ℚ × ℚ)) : scov (ps.map Prod.swap) = scov ps := by
  rw [scov, scov]
  simp only [List.length_map, List.map_map]
  have h1 : ((fun p : ℚ × ℚ => p.1 * p.2) ∘ Prod.swap)
      = fun p : ℚ × ℚ => p.1 * p.2 := by
    funext p
    exact mul_comm p.2 p.1
  have h2 : (Prod.fst ∘ Prod.swap) = (Prod.snd : ℚ × ℚ → ℚ) := rfl
  have h3 : (Prod.snd ∘ Prod.swap) = (Prod.fst : ℚ × ℚ → ℚ) := rfl
  rw [h1, h2, h3]
  ring

theorem corr_entry_symm (xs ys : List (Option ℚ)) :
    corr_entry xs ys = corr_entry ys xs := by
  rw [corr_entry, corr_entry, pair_obs_symm xs ys]
  have hf : ((pair_obs xs ys).map Prod.swap).map Prod.fst
      = (pair_obs xs ys).map Prod.snd := by
    rw [List.map_map]
    rfl
  have hs : ((pair_obs xs ys).map Prod.swap).map Prod.snd
      = (pair_obs xs ys).map Prod.fst := by
    rw [List.map_map]
    rfl
  rw [hf, hs, scov_map_swap]
  by_cases h1 : svar ((pair_obs xs ys).map Prod.fst) = 0 <;>
    by_cases h2 : svar ((pair_obs xs ys).map Prod.snd) = 0 <;>
    simp [h1, h2, mul_comm]

theorem sq_term_sum (l : List ℚ) (x : ℚ) :
    (l.length : ℚ) * (x * x) - 2 * x * l.sum + (l.map (fun y => y * y)).sum
      = (l.map (fun y => (x - y) * (x - y))).sum := by
  induction l with
  | nil => simp
  | cons a t ih =>
    simp only [List.map_cons, List.sum_cons, List.length_cons]
    push_cast
    linear_combination ih

theorem svar_nonneg (l : List ℚ) : 0 ≤ svar l := by
  induction l with
  | nil => simp [svar]
  | cons a t ih =>
    rw [svar] at ih ⊢
    simp only [List.map_cons, List.sum_cons, List.length_cons]
    push_cast
    have h := sq_term_sum t a
    have hnn : 0 ≤ (t.map (fun y => (a - y) * (a - y))).sum := by
      apply List.sum_nonneg
      intro z hz
      obtain ⟨y, _, rfl⟩ := List.mem_map.mp hz
      exact mul_self_nonneg (a - y)
    nlinarith [ih, hnn, h]

theorem pair_obs_self (c : List (Option ℚ)) :
    pair_obs c c = (obs c).map (fun a => (a, a)) := by
  induction c with
  | nil => rfl
  | cons v t ih =>
    cases v <;>
      simp only [pair_obs, obs, List.zip_cons_cons, List.filterMap_cons] <;>
      simp only [pair_obs, obs] at ih <;>
      simp [ih]

theorem pair_obs_self_fst (c : List (Option ℚ)) :
    (pair_obs c c).map Prod.fst = obs c := by
  rw [pair_obs_self, List.map_map]
  have h : (Prod.fst ∘ fun a : ℚ => (a, a)) = id := rfl
  rw [h, List.map_id]

theorem pair_obs_self_snd (c : List (Option ℚ)) :
    (pair_obs c c).map Prod.snd = obs c := by
  rw [pair_obs_self, List.map_map]
  have h : (Prod.snd ∘ fun a : ℚ => (a, a)) = id := rfl
  rw [h, List.map_id]

theorem scov_self (c : List (Option ℚ)) : scov (pair_obs c c) = svar (obs c) := by
  rw [scov, svar, pair_obs_self_fst, pair_obs_self_snd, pair_obs_self,
    List.length_map, List.map_map]
  have h : ((fun p : ℚ × ℚ => p.1 * p.2) ∘ fun a : ℚ => (a, a))
      = fun x : ℚ => x * x := rfl
  rw [h]

theorem corr_entry_self (c : List (Option ℚ)) (h : svar (obs c) ≠ 0) :
    corr_entry c c = some 1 := by
  rw [corr_entry, pair_obs_self_fst, pair_obs_self_snd, scov_self]
  rw [if_neg (by simp [h])]
  congr 1
  have hv0 : (0 : ℚ) ≤ svar (obs c) := svar_nonneg _
  have hvR : (0 : ℝ) ≤ ((svar (obs c) : ℚ) : ℝ) := by exact_mod_cast hv0
  rw [Real.mul_self_sqrt hvR]
  apply div_self
  exact_mod_cast h

theorem mname_inj (i j : Fin 18) (h : mname i = mname j) : i = j := by
  revert h
  revert i j
  decide

theorem mem_corr_stack_iff (t : List MRow) (i j : Fin 18) (c : ℝ) :
    (mname i, mname j, c) ∈ corr_stack t
      ↔ corr_entry (mcol t i) (mcol t j) = some c := by
  rw [corr_stack]
  simp only [List.mem_flatMap, List.mem_filterMap, List.mem_finRange, true_and,
    Option.map_eq_some', Prod.mk.injEq]
  constructor
  · rintro ⟨i', j', c', hc', hi', hj', hcc⟩
    rw [← mname_inj i' i hi', ← mname_inj j' j hj', hc', hcc]
  · intro h
    exact ⟨i, j, c, h, rfl, rfl, rfl⟩

/-- C4 (amended): the flattened correlation matrix is symmetric — a triple
(A, B, c) appears iff (B, A, c) does — and its diagonal entry for any
column with non-zero variance (over that column's present values) is
exactly 1.  The matrix is not always a dense 18×18 grid: `stack()` drops
the pairs whose correlation is undefined (`NaN`), see the
counterexample. -/
theorem c4_corr_symm_diag :
    (∀ (t : List MRow) (i j : Fin 18) (c : ℝ),
        (mname i, mname j, c) ∈ corr_stack t
          ↔ (mname j, mname i, c) ∈ corr_stack t)
    ∧ (∀ (t : List MRow) (i : Fin 18),
        svar (obs (mcol t i)) ≠ 0 → (mname i, mname i, (1 : ℝ)) ∈ corr_stack t) := by
  constructor
  · intro t i j c
    rw [mem_corr_stack_iff, mem_corr_stack_iff, corr_entry_symm]
  · intro t i h
    rw [mem_corr_stack_iff]
    exact corr_entry_self _ h

theorem c4_corr_symm_diag_witness :
    svar (obs (mcol mt2 ⟨0, by decide⟩)) ≠ 0
    ∧ ("BMI", "BMI", (1 : ℝ)) ∈ corr_stack mt2 := by
  have h : svar (obs (mcol mt2 ⟨0, by decide⟩)) ≠ 0 := by
    with_unfolding_all decide
  have hm := c4_corr_symm_diag.2 mt2 ⟨0, by decide⟩ h
  have he : mname ⟨0, by decide⟩ = "BMI" := rfl
  rw [he] at hm
  exact ⟨h, hm⟩

/-- C4 counterexample: on a one-row metabolic table every pairwise variance
is zero, every correlation entry is `NaN`, and `stack()` drops all of them:
the flattened matrix is empty rather than dense 18×18. -/
theorem c4_counterexample : corr_stack mt1 = [] := by
  with_unfolding_all rfl

end Dashboard
